import Mathlib

/-!
Verification of the real-time communication core of the chitthi backend
repository against its natural-language specification.

The development shallowly embeds two source classes:

* `WSManager` — `WebSocketManager` from `src/frontend/src/lib/websocket.ts`
  (reconnection with exponential backoff, event-handler registry, send).
* `WebRTCService` — the call-signaling service from `src/unnamed/part_002`
  (call state, peer connections, ICE handling, mute toggling, teardown).

Stateful methods become pure state-transformers; effects on external
objects (frames written to a socket, `track.stop()` calls, closed peer
connections) are recorded in explicit trace fields of the state.
-/

namespace Chitthi

/-! ## WebSocketManager (src/frontend/src/lib/websocket.ts) -/

/-- Ready state of a browser WebSocket object, as observed through
`ws.readyState`. -/
inductive ReadyState
  | connecting
  | opened
  | closing
  | closedS
deriving DecidableEq

/-- A registered event handler. The source registers arbitrary callbacks;
the model keeps an identity and whether invoking it throws, which is the
only behavior the dispatch logic observes. -/
structure Handler where
  id : Nat
  fails : Bool
deriving DecidableEq

/-- State of `WebSocketManager`: the private fields of the class that the
reconnection, send and dispatch logic reads or writes. `ws = none` models
`this.ws === null`. -/
structure WSManager where
  ws : Option ReadyState
  eventHandlers : List (String × List Handler)
  reconnectAttempts : Nat
  maxReconnectAttempts : Nat
  reconnectDelay : Nat
  isConnecting : Bool
deriving DecidableEq

/-- The field initializers of the class (lines 27-35 of websocket.ts). -/
def initManager : WSManager :=
  { ws := none
    eventHandlers := []
    reconnectAttempts := 0
    maxReconnectAttempts := 5
    reconnectDelay := 1000
    isConnecting := false }

/-- `scheduleReconnect` (websocket.ts lines 283-307): bail out when the
attempt counter has reached the cap; otherwise increment it and compute
`min(reconnectDelay * 2^(attempts-1), 30000)`. Returns the new state and
the delay of the scheduled attempt (`none` when nothing is scheduled). -/
def WSManager.scheduleReconnect (m : WSManager) : WSManager × Option Nat :=
  if m.reconnectAttempts ≥ m.maxReconnectAttempts then
    (m, none)
  else
    let m' := { m with reconnectAttempts := m.reconnectAttempts + 1 }
    let delay := min (m.reconnectDelay * 2 ^ (m'.reconnectAttempts - 1)) 30000
    (m', some delay)

/-- The `onopen` handler (websocket.ts lines 70-77): clears the connecting
flag and resets the attempt counter and delay. -/
def WSManager.onOpen (m : WSManager) : WSManager :=
  { m with isConnecting := false, reconnectAttempts := 0, reconnectDelay := 1000 }

/-- The `onclose` handler (websocket.ts lines 83-95): clears the connecting
flag, then schedules a reconnect unless the close code is the permanent
failure code 4001 or the attempt counter has reached the cap. -/
def WSManager.onClose (code : Nat) (m : WSManager) : WSManager × Option Nat :=
  let m' := { m with isConnecting := false }
  if code ≠ 4001 ∧ m'.reconnectAttempts < m'.maxReconnectAttempts then
    m'.scheduleReconnect
  else
    (m', none)

/-- `disconnect()` (websocket.ts lines 121-128): closes and drops the
transport and sets `reconnectAttempts := maxReconnectAttempts` to prevent
any further reconnection. -/
def WSManager.disconnect (m : WSManager) : WSManager :=
  { m with ws := none, reconnectAttempts := m.maxReconnectAttempts }

/-- External events driving the reconnection logic. -/
inductive WSEvent
  | evOpen
  | evClose (code : Nat)
  | evDisconnect
deriving DecidableEq

/-- One step of the manager under an external event, returning the delay of
a reconnect attempt scheduled by that step, if any. -/
def WSManager.step (m : WSManager) : WSEvent → WSManager × Option Nat
  | WSEvent.evOpen => (m.onOpen, none)
  | WSEvent.evClose c => m.onClose c
  | WSEvent.evDisconnect => (m.disconnect, none)

/-- Trace of scheduled reconnect delays along a sequence of events. -/
def runSched : WSManager → List WSEvent → List (Option Nat)
  | _, [] => []
  | m, ev :: evs => (m.step ev).2 :: runSched (m.step ev).1 evs

/-- `isConnected()` (websocket.ts lines 133-135). -/
def WSManager.isConnected (m : WSManager) : Bool :=
  match m.ws with
  | some ReadyState.opened => true
  | _ => false

/-- `send(message)` (websocket.ts lines 140-153). Result: the returned
boolean, the post-state, and the list of frames written to the transport
by this call. -/
def WSManager.send (m : WSManager) (msg : String) : Bool × WSManager × List String :=
  if m.isConnected then (true, m, [msg]) else (false, m, [])

/-! ### Reconnection theorems -/

/-- Helper: once the attempt counter has reached the cap, any event other
than a successful open keeps it at or above the cap and schedules nothing. -/
theorem step_maxed (m : WSManager) (ev : WSEvent)
    (hm : m.reconnectAttempts ≥ m.maxReconnectAttempts) (hev : ev ≠ WSEvent.evOpen) :
    ((m.step ev).1).reconnectAttempts ≥ ((m.step ev).1).maxReconnectAttempts ∧
      (m.step ev).2 = none := by
  cases ev with
  | evOpen => exact absurd rfl hev
  | evClose c =>
    have hnot : ¬ (c ≠ 4001 ∧ m.reconnectAttempts < m.maxReconnectAttempts) := by
      intro h
      exact absurd h.2 (Nat.not_lt.mpr hm)
    simp [WSManager.step, WSManager.onClose, hnot, hm]
  | evDisconnect =>
    simp [WSManager.step, WSManager.disconnect]

/-- Helper: from a maxed-out state, a run containing no successful open
schedules no reconnect at all. -/
theorem runSched_maxed (evs : List WSEvent) :
    ∀ m : WSManager, m.reconnectAttempts ≥ m.maxReconnectAttempts →
      WSEvent.evOpen ∉ evs → runSched m evs = List.replicate evs.length none := by
  induction evs with
  | nil => intro m _ _; rfl
  | cons ev evs ih =>
    intro m hm hmem
    have hev : ev ≠ WSEvent.evOpen := fun h => hmem (h ▸ List.mem_cons_self ev evs)
    have hstep := step_maxed m ev hm hev
    simp only [runSched, hstep.2, List.length_cons, List.replicate_succ, List.cons.injEq]
    exact ⟨trivial, ih _ hstep.1 (fun h => hmem (List.mem_cons_of_mem ev h))⟩

/-- Claim C3: the n-th reconnect attempt (n starting at 1, the counter
holding n-1 before the attempt) is scheduled with delay
`min(1000 * 2^(n-1), 30000)`; starting from a fresh manager, five
consecutive abnormal closes yield delays 1s, 2s, 4s, 8s, 16s; and every
successful open resets the counter to 0 and the delay to the base 1000ms. -/
theorem reconnect_backoff_formula_and_reset :
    (∀ (m : WSManager) (n : Nat), m.reconnectAttempts + 1 = n →
      m.reconnectAttempts < m.maxReconnectAttempts → m.reconnectDelay = 1000 →
      (m.scheduleReconnect).2 = some (min (1000 * 2 ^ (n - 1)) 30000)) ∧
    runSched initManager (List.replicate 5 (WSEvent.evClose 1006)) =
      [some 1000, some 2000, some 4000, some 8000, some 16000] ∧
    (∀ m : WSManager,
      (m.onOpen).reconnectAttempts = 0 ∧ (m.onOpen).reconnectDelay = 1000) := by
  refine ⟨?_, by decide, fun m => ⟨rfl, rfl⟩⟩
  intro m n hn hlt hdelay
  subst hn
  simp [WSManager.scheduleReconnect, Nat.not_le.mpr hlt, hdelay]

/-- Witness for the backoff theorem at the fresh manager: the first attempt
is scheduled with delay `min(1000 * 2^0, 30000)` = 1000ms. -/
theorem reconnect_backoff_witness :
    (initManager.scheduleReconnect).2 = some (min (1000 * 2 ^ (1 - 1)) 30000) :=
  reconnect_backoff_formula_and_reset.1 initManager 1 rfl (by decide) rfl

/-- Claim C4: no reconnect is scheduled after an explicit `disconnect()`
(absent an intervening successful open), a close with the permanent-failure
code 4001 schedules nothing, and once the attempt counter has reached the
cap no event other than a successful open ever schedules a reconnect. -/
theorem no_reconnect_after_terminal :
    (∀ (m : WSManager) (evs : List WSEvent), WSEvent.evOpen ∉ evs →
      runSched m.disconnect evs = List.replicate evs.length none) ∧
    (∀ m : WSManager, (m.onClose 4001).2 = none) ∧
    (∀ (m : WSManager) (evs : List WSEvent),
      m.reconnectAttempts ≥ m.maxReconnectAttempts → WSEvent.evOpen ∉ evs →
      runSched m evs = List.replicate evs.length none) := by
  refine ⟨?_, ?_, fun m evs hm hmem => runSched_maxed evs m hm hmem⟩
  · intro m evs hmem
    exact runSched_maxed evs m.disconnect (Nat.le_refl _) hmem
  · intro m
    simp [WSManager.onClose]

/-- Witness for the terminal-state theorem: concrete runs after a
disconnect, after a 4001 close, and from a maxed-out counter schedule
nothing. -/
theorem no_reconnect_after_terminal_witness :
    runSched initManager.disconnect [WSEvent.evClose 1006, WSEvent.evClose 1006] =
      List.replicate 2 none ∧
    (initManager.onClose 4001).2 = none ∧
    runSched { initManager with reconnectAttempts := 5 } [WSEvent.evClose 1006] =
      List.replicate 1 none :=
  ⟨no_reconnect_after_terminal.1 initManager _ (by decide),
   no_reconnect_after_terminal.2.1 initManager,
   no_reconnect_after_terminal.2.2 _ _ (by decide) (by decide)⟩

/-- Claim C7: `send` on a manager that is not connected returns `false`,
leaves the state unchanged, and writes nothing to the transport (there is
no outbound queue in the state at all). -/
theorem send_disconnected_no_side_effects (m : WSManager) (msg : String)
    (h : m.isConnected = false) : m.send msg = (false, m, []) := by
  simp [WSManager.send, h]

/-- Witness: sending on the fresh (never-connected) manager returns false
and changes nothing. -/
theorem send_disconnected_witness :
    initManager.send "hello" = (false, initManager, []) :=
  send_disconnected_no_side_effects initManager "hello" (by decide)

/-! ### Event handler registry and dispatch
(websocket.ts lines 211-219 and 257-278) -/

/-- `this.eventHandlers.get(tag)`; an absent key behaves like an empty
handler list, matching the `if (handlers)` guard in `handleMessage`. -/
def lookupHandlers : List (String × List Handler) → String → List Handler
  | [], _ => []
  | p :: rest, tag => if p.1 = tag then p.2 else lookupHandlers rest tag

/-- The body of `addEventListener`: create an empty list for a fresh tag,
then push the handler at the end of the tag's list (no de-duplication). -/
def addHandler : List (String × List Handler) → String → Handler → List (String × List Handler)
  | [], tag, h => [(tag, [h])]
  | p :: rest, tag, h =>
    if p.1 = tag then (p.1, p.2 ++ [h]) :: rest else p :: addHandler rest tag h

/-- `addEventListener(eventType, handler)` (websocket.ts lines 211-219). -/
def WSManager.addEventListener (m : WSManager) (tag : String) (h : Handler) : WSManager :=
  { m with eventHandlers := addHandler m.eventHandlers tag h }

/-- Invoking one handler: the call either returns normally or throws. -/
def runHandler (h : Handler) : Except String Unit :=
  if h.fails then Except.error "handler threw" else Except.ok ()

/-- The `handlers.forEach` loop of `handleMessage` with its per-handler
`try/catch`: each handler is invoked in list order; a thrown error is
caught and logged and the loop continues with the next handler. The result
records, in invocation order, each invoked handler's id and outcome. -/
def dispatchHandlers : List Handler → List (Nat × Except String Unit)
  | [] => []
  | h :: rest =>
    match runHandler h with
    | Except.ok u => (h.id, Except.ok u) :: dispatchHandlers rest
    | Except.error e => (h.id, Except.error e) :: dispatchHandlers rest

/-- `handleMessage` (websocket.ts lines 257-278), after successful JSON
parsing of a frame whose `type` field is `tag`: look up the handlers
registered for the tag and dispatch to each of them. -/
def WSManager.handleMessage (m : WSManager) (tag : String) :
    List (Nat × Except String Unit) :=
  dispatchHandlers (lookupHandlers m.eventHandlers tag)

/-- Helper: dispatch invokes exactly the handlers of the list, in order,
recording each one's outcome — the try/catch makes the trace independent
of which handlers throw. -/
theorem dispatchHandlers_eq_map (hs : List Handler) :
    dispatchHandlers hs = hs.map (fun h => (h.id, runHandler h)) := by
  induction hs with
  | nil => rfl
  | cons h rest ih =>
    cases hrun : runHandler h <;>
      simp [dispatchHandlers, hrun, ih]

/-- Helper: registering a handler appends it at the end of the tag's
handler list and leaves other tags untouched. -/
theorem lookupHandlers_addHandler (ehs : List (String × List Handler))
    (tag : String) (h : Handler) :
    lookupHandlers (addHandler ehs tag h) tag = lookupHandlers ehs tag ++ [h] := by
  induction ehs with
  | nil => simp [addHandler, lookupHandlers]
  | cons p rest ih =>
    by_cases hp : p.1 = tag
    · simp [addHandler, lookupHandlers, hp]
    · simp [addHandler, lookupHandlers, hp, ih]

/-- Claim C8: dispatching an inbound message invokes every handler
currently registered for its type tag, in subscription order (registration
appends at the end), and a handler that throws does not prevent the
remaining handlers from being invoked: the invocation trace is exactly the
registered list with each handler's own outcome. -/
theorem handleMessage_invokes_all_in_order :
    (∀ (m : WSManager) (tag : String),
      m.handleMessage tag =
        (lookupHandlers m.eventHandlers tag).map (fun h => (h.id, runHandler h))) ∧
    (∀ (m : WSManager) (tag : String) (h : Handler),
      lookupHandlers (m.addEventListener tag h).eventHandlers tag =
        lookupHandlers m.eventHandlers tag ++ [h]) := by
  constructor
  · intro m tag
    exact dispatchHandlers_eq_map _
  · intro m tag h
    exact lookupHandlers_addHandler _ tag h

/-- A concrete non-failing handler used in closed evaluations. -/
def hOk : Handler := { id := 7, fails := false }

/-- A manager with the same callback registered twice for tag "typing". -/
def doubledManager : WSManager :=
  (initManager.addEventListener "typing" hOk).addEventListener "typing" hOk

/-- Counterexample to claim C9: registering the same callback twice for the
same tag and dispatching one message of that tag invokes the callback
twice, not exactly once. -/
theorem duplicate_registration_counterexample :
    ((doubledManager.handleMessage "typing").map Prod.fst).count 7 = 2 ∧
      ¬ ((doubledManager.handleMessage "typing").map Prod.fst).count 7 = 1 := by
  exact ⟨rfl, by decide⟩

/-- Claim C9 as amended: registration does not de-duplicate; registering
the same callback twice for the same tag adds two entries, and a single
dispatched message of that tag invokes the callback once per registration
— twice — after the two invocations of every previously registered
handler. -/
theorem duplicate_registration_once_per_entry (m : WSManager) (tag : String)
    (h : Handler) :
    (((m.addEventListener tag h).addEventListener tag h).handleMessage tag).map
        Prod.fst =
      (m.handleMessage tag).map Prod.fst ++ [h.id, h.id] := by
  simp only [WSManager.handleMessage, dispatchHandlers_eq_map, WSManager.addEventListener]
  rw [lookupHandlers_addHandler, lookupHandlers_addHandler]
  rw [List.map_append, List.map_append, List.map_append, List.map_append,
    List.append_assoc]
  rfl

/-! ## WebRTCService (src/unnamed/part_002) -/

/-- Kind of a local media track. -/
inductive TrackKind
  | audio
  | video
deriving DecidableEq

/-- A local media track: its kind, its `enabled` bit (toggled by mute and
video controls) and whether `stop()` has been called on it. -/
structure MediaTrack where
  kind : TrackKind
  enabled : Bool
  stopped : Bool
deriving DecidableEq

/-- An `RTCPeerConnection` as the service drives it: the remote and local
session descriptions and the candidates passed to `addIceCandidate`, in
call order. -/
structure RTCPeerConn where
  remoteDescription : Option String
  localDescription : Option String
  appliedCandidates : List String
  closed : Bool
deriving DecidableEq

/-- A freshly constructed `RTCPeerConnection`. -/
def newPeerConn : RTCPeerConn :=
  { remoteDescription := none
    localDescription := none
    appliedCandidates := []
    closed := false }

/-- `CallParticipant` from part_002 (the `peerConnection`/`stream` fields
are reduced to a presence bit; the claims never inspect them further). -/
structure CallParticipant where
  userId : String
  isMuted : Option Bool
  isVideoEnabled : Option Bool
  hasStream : Bool
deriving DecidableEq

/-- The `call_type` tag. -/
inductive CallType
  | audio
  | video
deriving DecidableEq

/-- `CallState` from part_002 (lines 26-35), without the opaque
`localStream` reference which the service mirrors in its own field. -/
structure CallState where
  callId : Option String
  isActive : Bool
  isIncoming : Bool
  participants : List CallParticipant
  callType : CallType
  isMuted : Bool
  isVideoEnabled : Bool
deriving DecidableEq

/-- `SignalingMessage` from part_002 (lines 4-12), restricted to the fields
the service reads or writes. -/
structure SignalingMessage where
  type : String
  user_id : String
  sdp : Option String
  candidate : Option String
  muted : Option Bool
  video_enabled : Option Bool
deriving DecidableEq

/-- State of `WebRTCService`. `ws` and `signalingSocket` model the two
WebSocket fields of the class: the source assigns a socket only to
`signalingSocket` (in `connectSignaling`) and only ever reads `ws` or sets
it to `undefined`, and the embedding mirrors that exactly.
`sentMessages` records the frames actually written to a socket;
`signalingCalls` records every invocation of `sendSignalingMessage`;
`stoppedTracks` and `closedPeerConnections` record the `track.stop()` and
`pc.close()` calls made on external objects. -/
structure WebRTCService where
  ws : Option ReadyState
  signalingSocket : Option ReadyState
  localStream : Option (List MediaTrack)
  peerConnections : List (String × RTCPeerConn)
  callState : CallState
  currentUserId : String
  sentMessages : List SignalingMessage
  signalingCalls : List SignalingMessage
  stoppedTracks : List MediaTrack
  closedPeerConnections : List String
deriving DecidableEq

/-- The field initializers of the class (part_002 lines 38-51), with the
current user id the token manager falls back to. -/
def initService : WebRTCService :=
  { ws := none
    signalingSocket := none
    localStream := none
    peerConnections := []
    callState :=
      { callId := none
        isActive := false
        isIncoming := false
        participants := []
        callType := CallType.audio
        isMuted := false
        isVideoEnabled := false }
    currentUserId := "current_user"
    sentMessages := []
    signalingCalls := []
    stoppedTracks := []
    closedPeerConnections := [] }

/-- `this.peerConnections.get(userId)`. -/
def lookupPC : List (String × RTCPeerConn) → String → Option RTCPeerConn
  | [], _ => none
  | p :: rest, u => if p.1 = u then some p.2 else lookupPC rest u

/-- Update the entry stored under `userId` (mutation of the fetched
`RTCPeerConnection` object). -/
def updatePC (pcs : List (String × RTCPeerConn)) (userId : String)
    (f : RTCPeerConn → RTCPeerConn) : List (String × RTCPeerConn) :=
  pcs.map fun p => if p.1 = userId then (p.1, f p.2) else p

/-- `sendSignalingMessage` (part_002 lines 454-458): the frame is written
only when `this.ws` holds an open socket — and `ws` is never assigned a
socket anywhere in the class. -/
def WebRTCService.sendSignalingMessage (svc : WebRTCService)
    (msg : SignalingMessage) : WebRTCService :=
  let svc' := { svc with signalingCalls := svc.signalingCalls ++ [msg] }
  match svc'.ws with
  | some ReadyState.opened => { svc' with sentMessages := svc'.sentMessages ++ [msg] }
  | _ => svc'

/-- `getOrCreatePeerConnection` (part_002 lines 394-452): reuse the stored
connection or create and store a fresh one (the track/handler wiring acts
on the external object only). -/
def WebRTCService.getOrCreatePeerConnection (svc : WebRTCService)
    (userId : String) : WebRTCService :=
  match lookupPC svc.peerConnections userId with
  | some _ => svc
  | none => { svc with peerConnections := svc.peerConnections ++ [(userId, newPeerConn)] }

/-- `handleOffer` (part_002 lines 334-356): get-or-create the peer
connection, apply the remote description, create and apply the local
answer (`answerSdp` stands for the browser-generated answer), and send the
answer through `sendSignalingMessage`. -/
def WebRTCService.handleOffer (svc : WebRTCService)
    (userId sdp answerSdp : String) : WebRTCService :=
  let s1 := svc.getOrCreatePeerConnection userId
  let s2 := { s1 with
    peerConnections := updatePC s1.peerConnections userId fun pc =>
      { pc with remoteDescription := some sdp, localDescription := some answerSdp } }
  s2.sendSignalingMessage
    { type := "answer", user_id := svc.currentUserId, sdp := some answerSdp,
      candidate := none, muted := none, video_enabled := none }

/-- `handleIceCandidate` (part_002 lines 370-378): apply the candidate
immediately when a peer connection for the sender exists; otherwise do
nothing at all — the candidate is not stored anywhere. -/
def WebRTCService.handleIceCandidate (svc : WebRTCService)
    (userId cand : String) : WebRTCService :=
  match lookupPC svc.peerConnections userId with
  | some _ =>
    { svc with
      peerConnections := updatePC svc.peerConnections userId fun pc =>
        { pc with appliedCandidates := pc.appliedCandidates ++ [cand] } }
  | none => svc

/-- `handleIncomingCall` (part_002 lines 483-501): unconditionally
overwrite the call state with the incoming call's data. -/
def WebRTCService.handleIncomingCall (svc : WebRTCService)
    (callId callerId : String) (callType : CallType) : WebRTCService :=
  { svc with callState := { svc.callState with
      callId := some callId
      isIncoming := true
      callType := callType
      isVideoEnabled := decide (callType = CallType.video)
      participants :=
        [{ userId := callerId, isMuted := none, isVideoEnabled := none,
           hasStream := false }] } }

/-- The tracks `getUserMedia` yields for the given constraints. -/
def getLocalStreamTracks (includeVideo : Bool) : List MediaTrack :=
  if includeVideo then
    [{ kind := TrackKind.audio, enabled := true, stopped := false },
     { kind := TrackKind.video, enabled := true, stopped := false }]
  else
    [{ kind := TrackKind.audio, enabled := true, stopped := false }]

/-- `initiateCall` (part_002 lines 76-115), success path: acquire local
media, call the REST collaborator (which returns `newCallId`; the
`participants` argument is forwarded to it and not stored), overwrite the
call state, connect the signaling socket, and return the call id. No step
checks whether a call is already active. -/
def WebRTCService.initiateCall (svc : WebRTCService) (participants : List String)
    (callType : CallType) (newCallId : String) : String × WebRTCService :=
  let _ := participants
  let s1 := { svc with
    localStream := some (getLocalStreamTracks (decide (callType = CallType.video))) }
  let s2 := { s1 with callState := { s1.callState with
      callId := some newCallId
      isActive := true
      isIncoming := false
      callType := callType
      isVideoEnabled := decide (callType = CallType.video) } }
  (newCallId, { s2 with signalingSocket := some ReadyState.opened })

/-- Flip the `enabled` bit of the first audio track
(`localStream.getAudioTracks()[0]`). -/
def flipFirstAudio : List MediaTrack → List MediaTrack
  | [] => []
  | t :: ts =>
    if t.kind = TrackKind.audio then { t with enabled := !t.enabled } :: ts
    else t :: flipFirstAudio ts

/-- `toggleMute` (part_002 lines 181-202): when a local stream with an
audio track exists, flip the track's enabled bit, set `isMuted` to the
negation of the new bit, and send a `mute` signaling message. -/
def WebRTCService.toggleMute (svc : WebRTCService) : WebRTCService :=
  match svc.localStream with
  | none => svc
  | some tracks =>
    match (tracks.filter fun t => decide (t.kind = TrackKind.audio)).head? with
    | none => svc
    | some audioTrack =>
      let newEnabled := !audioTrack.enabled
      let isMuted := !newEnabled
      let svc' := { svc with
        localStream := some (flipFirstAudio tracks)
        callState := { svc.callState with isMuted := isMuted } }
      svc'.sendSignalingMessage
        { type := "mute", user_id := svc.currentUserId, sdp := none,
          candidate := none, muted := some isMuted, video_enabled := none }

/-- `cleanup` (part_002 lines 460-476): stop every local track and drop the
stream, close every stored peer connection and clear the map, and close
`this.ws` — the never-assigned field — leaving `signalingSocket` untouched,
exactly as in the source. -/
def WebRTCService.cleanup (svc : WebRTCService) : WebRTCService :=
  { svc with
    stoppedTracks :=
      svc.stoppedTracks ++ (svc.localStream.getD []).map fun t => { t with stopped := true }
    localStream := none
    closedPeerConnections :=
      svc.closedPeerConnections ++ svc.peerConnections.map Prod.fst
    peerConnections := []
    ws := none }

/-- `endCall` (part_002 lines 139-155). `restOk` is the outcome of the
`callsApi.endCall` REST request: on success the method cleans up and marks
the state inactive; when the request throws, the catch block only runs
`cleanup`, leaving `callState` untouched. With no stored `callId` the REST
request is skipped. -/
def WebRTCService.endCall (svc : WebRTCService) (restOk : Bool) : WebRTCService :=
  match svc.callState.callId with
  | some _ =>
    if restOk then
      let s := svc.cleanup
      { s with callState :=
          { s.callState with isActive := false, isIncoming := false, participants := [] } }
    else
      svc.cleanup
  | none =>
    let s := svc.cleanup
    { s with callState :=
        { s.callState with isActive := false, isIncoming := false, participants := [] } }

/-! ### ICE candidate handling (claim C1) -/

/-- Helper: looking up a key after updating it applies the update to the
stored connection. -/
theorem lookupPC_updatePC (pcs : List (String × RTCPeerConn)) (u : String)
    (f : RTCPeerConn → RTCPeerConn) :
    lookupPC (updatePC pcs u f) u = (lookupPC pcs u).map f := by
  induction pcs with
  | nil => rfl
  | cons p rest ih =>
    by_cases hp : p.1 = u
    · simp [updatePC, lookupPC, hp]
    · simp only [updatePC, List.map_cons] at ih ⊢
      simp [lookupPC, hp, ih]

/-- Counterexample to claim C1: an ICE candidate that arrives before the
participant's remote description (here: before any peer connection for
"u2" exists) leaves the whole service state unchanged — it is discarded,
not buffered — and after the offer for "u2" is applied, the peer
connection's applied-candidate list is empty instead of holding the
earlier candidate. -/
theorem ice_candidate_dropped_counterexample :
    WebRTCService.handleIceCandidate initService "u2" "cand1" = initService ∧
    lookupPC ((WebRTCService.handleOffer
        (WebRTCService.handleIceCandidate initService "u2" "cand1")
        "u2" "offer-sdp" "answer-sdp").peerConnections) "u2" =
      some { remoteDescription := some "offer-sdp"
             localDescription := some "answer-sdp"
             appliedCandidates := []
             closed := false } := by
  exact ⟨rfl, by decide⟩

/-- Claim C1 as amended: an ICE candidate received while no peer connection
for the sender exists (which, in this code, is exactly the period before
the sender's offer applies the remote description) is silently discarded —
the service state is unchanged; candidates received once the peer
connection exists are applied immediately, in arrival order, none dropped. -/
theorem ice_candidate_discard_or_immediate :
    (∀ (svc : WebRTCService) (u c : String),
      lookupPC svc.peerConnections u = none →
      svc.handleIceCandidate u c = svc) ∧
    (∀ (cs : List String) (svc : WebRTCService) (u : String) (pc : RTCPeerConn),
      lookupPC svc.peerConnections u = some pc →
      lookupPC ((cs.foldl (fun s c => WebRTCService.handleIceCandidate s u c)
          svc).peerConnections) u =
        some { pc with appliedCandidates := pc.appliedCandidates ++ cs }) := by
  constructor
  · intro svc u c h
    simp [WebRTCService.handleIceCandidate, h]
  · intro cs
    induction cs with
    | nil =>
      intro svc u pc h
      simpa using h
    | cons c cs ih =>
      intro svc u pc h
      have hstep :
          lookupPC ((svc.handleIceCandidate u c).peerConnections) u =
            some { pc with appliedCandidates := pc.appliedCandidates ++ [c] } := by
        simp [WebRTCService.handleIceCandidate, h, lookupPC_updatePC]
      have := ih (svc.handleIceCandidate u c) u
        { pc with appliedCandidates := pc.appliedCandidates ++ [c] } hstep
      simpa [List.append_assoc] using this

/-- The service after it has handled an offer from "u2". -/
def offerService : WebRTCService :=
  WebRTCService.handleOffer initService "u2" "offer1" "answer1"

/-- The peer connection `offerService` stores for "u2". -/
def pcAfterOffer : RTCPeerConn :=
  { remoteDescription := some "offer1"
    localDescription := some "answer1"
    appliedCandidates := []
    closed := false }

/-- Witness for the amended ICE theorem: a pre-offer candidate leaves the
fresh service untouched, and two post-offer candidates are applied to
"u2"'s connection in arrival order. -/
theorem ice_candidate_discard_or_immediate_witness :
    WebRTCService.handleIceCandidate initService "u2" "c0" = initService ∧
    lookupPC ((["c1", "c2"].foldl
        (fun s c => WebRTCService.handleIceCandidate s "u2" c)
        offerService).peerConnections) "u2" =
      some { pcAfterOffer with
             appliedCandidates := pcAfterOffer.appliedCandidates ++ ["c1", "c2"] } :=
  ⟨ice_candidate_discard_or_immediate.1 initService "u2" "c0" (by decide),
   ice_candidate_discard_or_immediate.2 ["c1", "c2"] offerService "u2" pcAfterOffer
     (by decide)⟩

/-! ### Call admission (claim C2) -/

/-- A service with an active call ("call1" with participant "u2"). -/
def busyService : WebRTCService :=
  { initService with
    localStream := some (getLocalStreamTracks false)
    signalingSocket := some ReadyState.opened
    callState :=
      { callId := some "call1"
        isActive := true
        isIncoming := false
        participants :=
          [{ userId := "u2", isMuted := none, isVideoEnabled := none,
             hasStream := false }]
        callType := CallType.audio
        isMuted := false
        isVideoEnabled := false } }

/-- Counterexample to claim C2: starting a second call while "call1" is
active does not fail with any busy error — `initiateCall` returns the new
call id and overwrites the active call reference, and an incoming-call
notification likewise replaces it. -/
theorem second_call_no_busy_error_counterexample :
    busyService.callState.callId = some "call1" ∧
    busyService.callState.isActive = true ∧
    (busyService.initiateCall ["u3"] CallType.audio "call2").1 = "call2" ∧
    (busyService.initiateCall ["u3"] CallType.audio "call2").2.callState.callId =
      some "call2" ∧
    (busyService.handleIncomingCall "call3" "u9" CallType.audio).callState.callId =
      some "call3" := by
  refine ⟨rfl, rfl, rfl, by decide, by decide⟩

/-- Claim C2 as amended: the code performs no busy check and no `ErrBusy`
error exists; `initiateCall` always succeeds (on the REST success path)
and overwrites the active call state with the new call id, and
`handleIncomingCall` unconditionally overwrites the active call state with
the incoming call's data. -/
theorem second_call_overwrites_state :
    (∀ (svc : WebRTCService) (ps : List String) (ct : CallType) (newId : String),
      (svc.initiateCall ps ct newId).1 = newId ∧
      (svc.initiateCall ps ct newId).2.callState.callId = some newId ∧
      (svc.initiateCall ps ct newId).2.callState.isActive = true) ∧
    (∀ (svc : WebRTCService) (cid callerId : String) (ct : CallType),
      (svc.handleIncomingCall cid callerId ct).callState.callId = some cid ∧
      (svc.handleIncomingCall cid callerId ct).callState.isIncoming = true ∧
      (svc.handleIncomingCall cid callerId ct).callState.participants =
        [{ userId := callerId, isMuted := none, isVideoEnabled := none,
           hasStream := false }]) := by
  constructor
  · intro svc ps ct newId
    exact ⟨rfl, rfl, rfl⟩
  · intro svc cid callerId ct
    exact ⟨rfl, rfl, rfl⟩

/-! ### Mute toggling (claim C5) -/

/-- Evaluation of the code at claim C5's scenario: an active call with an
enabled local audio track and an open signaling socket. Toggling mute
twice does return the mute flag to its original value and does invoke
`sendSignalingMessage` twice, but zero signaling messages reach the wire:
the send guard reads `this.ws`, which is never assigned a socket (the
socket lives in `this.signalingSocket`), so both broadcasts are silently
skipped — the specified behavior is two sent messages. -/
theorem toggleMute_twice_sends_nothing :
    (busyService.toggleMute).toggleMute.callState.isMuted =
      busyService.callState.isMuted ∧
    (busyService.toggleMute).toggleMute.signalingCalls.length = 2 ∧
    (busyService.toggleMute).toggleMute.sentMessages.length = 0 := by
  exact ⟨by decide, by decide, by decide⟩

/-! ### Call teardown (claims C6 and C10) -/

/-- `busyService` with an established peer connection for "u2". -/
def connectedService : WebRTCService :=
  { busyService with
    peerConnections :=
      [("u2", { remoteDescription := some "offer1"
                localDescription := some "answer1"
                appliedCandidates := ["c1"]
                closed := false })] }

/-- Evaluation of the code at claim C6's scenario: `endCall` (successful
REST request) closes and clears every peer connection, but the signaling
socket stays open — `cleanup` closes the never-assigned `this.ws` field
instead — and a later inbound offer on that still-open channel is
processed and creates a fresh peer connection, so the channel is still in
use after the call ended. -/
theorem endCall_leaves_signaling_usable :
    (connectedService.endCall true).peerConnections = [] ∧
    (connectedService.endCall true).closedPeerConnections = ["u2"] ∧
    (connectedService.endCall true).signalingSocket = some ReadyState.opened ∧
    ((connectedService.endCall true).handleOffer "u2" "offer2" "answer2").peerConnections ≠
      [] := by
  exact ⟨by decide, by decide, by decide, by decide⟩

/-- Claim C10: when the REST end-call request fails, `endCall` still stops
every local media track, closes and removes every peer connection, and
leaves the entire call state — in particular `isActive` and
`participants` — unchanged. -/
theorem endCall_rest_failure_cleanup_only (svc : WebRTCService) (cid : String)
    (h : svc.callState.callId = some cid) :
    (svc.endCall false).localStream = none ∧
    (svc.endCall false).stoppedTracks =
      svc.stoppedTracks ++ (svc.localStream.getD []).map (fun t => { t with stopped := true }) ∧
    (svc.endCall false).peerConnections = [] ∧
    (svc.endCall false).closedPeerConnections =
      svc.closedPeerConnections ++ svc.peerConnections.map Prod.fst ∧
    (svc.endCall false).callState = svc.callState := by
  simp [WebRTCService.endCall, h, WebRTCService.cleanup]

/-- Witness for the failed-end-call theorem at the connected service. -/
theorem endCall_rest_failure_witness :
    (connectedService.endCall false).localStream = none ∧
    (connectedService.endCall false).stoppedTracks =
      connectedService.stoppedTracks ++
        (connectedService.localStream.getD []).map (fun t => { t with stopped := true }) ∧
    (connectedService.endCall false).peerConnections = [] ∧
    (connectedService.endCall false).closedPeerConnections =
      connectedService.closedPeerConnections ++
        connectedService.peerConnections.map Prod.fst ∧
    (connectedService.endCall false).callState = connectedService.callState :=
  endCall_rest_failure_cleanup_only connectedService "call1" (by decide)

end Chitthi
